import Mathlib

/-!
ESP32 master / STM32 slave over an nRF24 link.

A shallow embedding of `ESP32_Master_Code.c` (the initiator) and
`STM32_Slave_Code.c` (the responder).

* Global variables become fields of a state record; every function of the
  source becomes a function on that record.
* Every call into the radio driver, the delay primitive and the restart
  primitive is appended to the field `log`, in call order, so that the number
  of polls, reads, mode switches, the requested sleep and the restarts of an
  execution can be read off the final state.
* The answers of `NRF24_write` and `NRF24_available` are inputs: a cycle
  receives the answer of its write and the stream of answers of its polls.
* `int` values are `Int`; `x++` on a counter whose range the code does not
  bound is taken modulo `2^32` into the signed range (`inc32`).
* `while` loops carry a fuel argument; the result is `none` when the fuel is
  used up, and every theorem that says a loop produces a result proves it for
  all sufficiently large fuel.
* `printf` and `fflush` only produce diagnostic text and are left out; the
  contents of the 32-byte buffers are not modelled (a call records which
  buffer it was given).
-/

/-- The four 32-byte buffers the two programs hand to the driver. -/
inductive Buf
  | myTxData
  | myRxData
  | myAckPayload
  | AckPayload
  deriving DecidableEq, Repr

/-- One call that leaves the program: a driver call, a GPIO write, a delay or
the restart primitive, with the arguments the source passes. -/
inductive Call
  | init
  | stopListening
  | startListening
  | openWritingPipe (addr : Nat)
  | openReadingPipe (pipe : Nat) (addr : Nat)
  | setAutoAck (enable : Bool)
  | setChannel (channel : Nat)
  | setPayloadSize (size : Nat)
  | enableDynamicPayloads
  | enableAckPayload
  | write (buf : Buf) (len : Nat)
  | read (buf : Buf) (len : Nat)
  | available
  | writeAckPayload (pipe : Nat) (buf : Buf) (len : Nat)
  | gpioWritePin (pin : Nat) (level : Bool)
  | printRadioSettings
  | delay (ms : Nat)
  | restart
  deriving DecidableEq, Repr

/-- The radio configuration: for each setting, the value last given to it. -/
structure Radio where
  listening : Bool
  writingPipe : Option Nat
  readingPipe : Option (Nat × Nat)
  autoAck : Bool
  channel : Nat
  payloadSize : Nat
  dynamicPayloads : Bool
  ackPayloads : Bool
  deriving DecidableEq, Repr

/-- Modelled from the spec: the driver (`NRF24L01.h`, `MY_NRF24.h`) is not among
the sources; following the link abstraction of the spec (section 6), each
configuration call sets the one setting it names and every other call leaves
the configuration alone. -/
def Radio.apply (r : Radio) : Call → Radio
  | .stopListening => { r with listening := false }
  | .startListening => { r with listening := true }
  | .openWritingPipe a => { r with writingPipe := some a }
  | .openReadingPipe p a => { r with readingPipe := some (p, a) }
  | .setAutoAck b => { r with autoAck := b }
  | .setChannel c => { r with channel := c }
  | .setPayloadSize n => { r with payloadSize := n }
  | .enableDynamicPayloads => { r with dynamicPayloads := true }
  | .enableAckPayload => { r with ackPayloads := true }
  | _ => r

/-- Signed 32-bit `x++`: the successor, taken modulo `2^32` into
`[-2^31, 2^31)`. -/
def inc32 (x : Int) : Int := (x + 1 + 2 ^ 31) % 2 ^ 32 - 2 ^ 31

/-- Number of `NRF24_available` calls in a log. -/
def polls (log : List Call) : Nat := log.count Call.available

/-- Number of `esp_restart` calls in a log. -/
def restarts (log : List Call) : Nat := log.count Call.restart

/-- Number of `NRF24_write` calls in a log. -/
def writes (log : List Call) : Nat :=
  log.countP fun c => match c with
    | .write _ _ => true
    | _ => false

/-- Number of `NRF24_read` calls in a log. -/
def reads (log : List Call) : Nat :=
  log.countP fun c => match c with
    | .read _ _ => true
    | _ => false

/-- Number of `NRF24_write_AckPayload` calls in a log. -/
def ackWrites (log : List Call) : Nat :=
  log.countP fun c => match c with
    | .writeAckPayload _ _ _ => true
    | _ => false

/-- Number of calls in a log that belong to a mode switch: listening on or
off, a pipe opened, or one of the five common settings. -/
def configCalls (log : List Call) : Nat :=
  log.countP fun c => match c with
    | .stopListening => true
    | .startListening => true
    | .openWritingPipe _ => true
    | .openReadingPipe _ _ => true
    | .setAutoAck _ => true
    | .setChannel _ => true
    | .setPayloadSize _ => true
    | .enableDynamicPayloads => true
    | .enableAckPayload => true
    | _ => false

/-- Total sleep requested in a log, in milliseconds. -/
def sleepMs : List Call → Nat
  | [] => 0
  | .delay ms :: cs => ms + sleepMs cs
  | _ :: cs => sleepMs cs

/-- For each `NRF24_write` of a log, in order, whether the radio was listening
when it was issued; `l` is the direction before the first call of the log. -/
def writeDirections (l : Bool) : List Call → List Bool
  | [] => []
  | .startListening :: cs => writeDirections true cs
  | .stopListening :: cs => writeDirections false cs
  | .write _ _ :: cs => l :: writeDirections l cs
  | _ :: cs => writeDirections l cs

namespace Master

/-! ## `ESP32_Master_Code.c` -/

/-- The macro `#define TX_MODE 1`, passed as `bool`. -/
def TX_MODE : Bool := true

/-- The macro `#define RX_MODE 0`, passed as `bool`. -/
def RX_MODE : Bool := false

/-- The global `uint64_t SlaveAddrs = 0x11223344AA;`. -/
def SlaveAddrs : Nat := 0x11223344AA

/-- The global variables of the initiator, its radio and its call log. -/
structure State where
  DataCount : Int
  waitCount : Int
  C_ERROR_COUNT : Int
  errorFlag : Bool
  radio : Radio
  log : List Call
  deriving DecidableEq, Repr

/-- The globals as their initialisers leave them, before `setup`. -/
def fresh (r : Radio) : State :=
  { DataCount := 0, waitCount := 0, C_ERROR_COUNT := 0, errorFlag := true,
    radio := r, log := [] }

/-- Issue one outside call: it acts on the radio and is logged. -/
def State.call (s : State) (c : Call) : State :=
  { s with radio := s.radio.apply c, log := s.log ++ [c] }

/-- Modelled from the spec: the delay primitive `sleep(duration_ms)`. The
source writes `vTaskDelay(ms / portTICK_PERIOD_MS)`; the tick macro is not
among the sources, and the call is recorded with the milliseconds it
converts. -/
def vTaskDelay (ms : Nat) (s : State) : State := s.call (.delay ms)

/-- The function `void nrf24_config_mode(bool transmit_mode)`. -/
def nrf24_config_mode (transmit_mode : Bool) (s : State) : State :=
  let s :=
    if transmit_mode then
      (s.call .stopListening).call (.openWritingPipe SlaveAddrs)
    else
      (s.call .startListening).call (.openReadingPipe 1 SlaveAddrs)
  let s := s.call (.setAutoAck true)
  let s := s.call (.setChannel 52)
  let s := s.call (.setPayloadSize 32)
  let s := s.call .enableDynamicPayloads
  s.call .enableAckPayload

/-- The function `bool ShootTheMessage(void)`; `w` is what `NRF24_write` answers. -/
def ShootTheMessage (w : Bool) (s : State) : Bool × State :=
  let s := s.call (.write .myTxData 32)
  if w then
    (true, s.call (.read .AckPayload 32))
  else
    (false, s)

/-- The function `bool ReceiveAndAcknowledgeData(void)`; `a` is what
`NRF24_available` answers. -/
def ReceiveAndAcknowledgeData (a : Bool) (s : State) : Bool × State :=
  let s := s.call .available
  if a then
    let s := s.call (.read .myRxData 32)
    let s := s.call (.writeAckPayload 1 .myAckPayload 32)
    let s := { s with DataCount := inc32 s.DataCount }
    (true, s)
  else
    (false, s)

/-- How a call of `AnnounceAndRestartIfNecessary` (and so a `loop` cycle)
ends: it returns, or it calls `esp_restart`, which does not return. The state
is the one at the return, or right after the restart call was issued. -/
inductive Outcome
  | returned (s : State)
  | restarted (s : State)
  deriving DecidableEq, Repr

/-- Whether the call came back to its caller. -/
def Outcome.didReturn : Outcome → Bool
  | .returned _ => true
  | .restarted _ => false

/-- The state an outcome carries. -/
def Outcome.state : Outcome → State
  | .returned s => s
  | .restarted s => s

/-- The parameters of `AnnounceAndRestartIfNecessary`: copies local to the
call, which shadow the globals of the same names. -/
structure Params where
  errorFlag : Bool
  waitCount : Int
  deriving DecidableEq, Repr

/-- The countdown `for (int i = 5; i >= 0; i--)` of one `printf` and one
`vTaskDelay(1000 / portTICK_PERIOD_MS)`, entered with `i`: one delay for each
of `i, i-1, ..., 0`. -/
def countdown : Nat → State → State
  | 0, s => vTaskDelay 1000 s
  | i + 1, s => countdown i (vTaskDelay 1000 s)

/-- The body of `AnnounceAndRestartIfNecessary`, run on the parameter copies
`p` and the globals `s`; it gives back the copies as the body leaves them
together with the outcome. -/
def announceBody (p : Params) (s : State) : Params × Outcome :=
  if p.waitCount = 5 then
    let s := if p.errorFlag then { s with C_ERROR_COUNT := inc32 s.C_ERROR_COUNT } else s
    let p := { p with errorFlag := false }
    if s.C_ERROR_COUNT ≥ 10 then
      let s := countdown 5 s
      (p, .restarted (s.call .restart))
    else
      (p, .returned s)
  else
    (p, .returned { s with C_ERROR_COUNT := 0 })

/-- The function `void AnnounceAndRestartIfNecessary(bool errorFlag, int waitCount)`:
the arguments are copied into the parameters, the body runs, the copies are
dropped. -/
def AnnounceAndRestartIfNecessary (errorFlag : Bool) (waitCount : Int) (s : State) : Outcome :=
  (announceBody { errorFlag := errorFlag, waitCount := waitCount } s).2

/-- The `while (waitCount < 5)` loop of `loop`. `av` is the stream of answers
`NRF24_available` gives from here on; `none` when the fuel is used up. -/
def awaitAck : Nat → (Nat → Bool) → State → Option State
  | 0, _, _ => none
  | fuel + 1, av, s =>
    if s.waitCount < 5 then
      let s := { s with waitCount := s.waitCount + 1 }
      match ReceiveAndAcknowledgeData (av 0) s with
      | (true, s) =>
        let s := nrf24_config_mode TX_MODE s
        let s := { s with errorFlag := false }
        let s := vTaskDelay 200 s
        some s
      | (false, s) =>
        let s := vTaskDelay 200 s
        let s := if s.waitCount = 5 then { s with errorFlag := true } else s
        awaitAck fuel (fun i => av (i + 1)) s
    else
      some s

/-- What the link answers during one `loop` cycle: the result of the
`NRF24_write` and the results of the successive `NRF24_available` polls
(`avail 0` is the first poll of the cycle). -/
structure Link where
  write : Bool
  avail : Nat → Bool

/-- The function `void loop(void)`; `none` when the fuel of the wait loop is used up. -/
def loop (fuel : Nat) (l : Link) (s : State) : Option Outcome :=
  let waited : Option State :=
    match ShootTheMessage l.write s with
    | (true, s) =>
      let s := nrf24_config_mode RX_MODE s
      let s := { s with waitCount := 0 }
      awaitAck fuel l.avail s
    | (false, s) =>
      let s := { s with errorFlag := true }
      -- `waitCount == 5;` is a comparison whose value is dropped
      some (vTaskDelay 200 s)
  waited.map fun s => AnnounceAndRestartIfNecessary s.errorFlag s.waitCount s

/-- The function `void setup(void)`. -/
def setup (s : State) : State :=
  let s := s.call .init
  let s := nrf24_config_mode TX_MODE s
  s.call .printRadioSettings

/-- The `while (1) { loop(); }` of `app_main`, run for one cycle per element
of the list; it stops at the first cycle that restarts. -/
def runLoop (fuel : Nat) : List Link → State → Option Outcome
  | [], s => some (.returned s)
  | l :: ls, s =>
    match loop fuel l s with
    | some (.returned s) => runLoop fuel ls s
    | r => r

end Master

namespace Slave

/-! ## `STM32_Slave_Code.c` -/

/-- The global `uint64_t pipeAddr = 0x11223344AA;`. -/
def pipeAddr : Nat := 0x11223344AA

/-- The responder: its received-message counter `count`, its radio, the level
of pin 5 of port A, and its call log. -/
structure State where
  count : Int
  radio : Radio
  pin5 : Bool
  log : List Call
  deriving DecidableEq, Repr

/-- Issue one outside call: it acts on the radio and is logged. -/
def State.call (s : State) (c : Call) : State :=
  { s with radio := s.radio.apply c, log := s.log ++ [c] }

/-- The call `HAL_GPIO_WritePin(GPIOA, GPIO_PIN_5, level)`. -/
def HAL_GPIO_WritePin (level : Bool) (s : State) : State :=
  { s.call (.gpioWritePin 5 level) with pin5 := level }

/-- The call `HAL_Delay(ms)`. -/
def HAL_Delay (ms : Nat) (s : State) : State := s.call (.delay ms)

/-- The function `void Tx_Mode(void)`. -/
def Tx_Mode (s : State) : State :=
  let s := s.call .stopListening
  let s := s.call (.openWritingPipe pipeAddr)
  let s := s.call (.setAutoAck true)
  let s := s.call (.setChannel 52)
  let s := s.call (.setPayloadSize 32)
  let s := s.call .enableDynamicPayloads
  let s := s.call .enableAckPayload
  HAL_GPIO_WritePin false s

/-- The function `bool Send_Data(void)`; `w` is what `NRF24_write` answers. -/
def Send_Data (w : Bool) (s : State) : Bool × State :=
  let s := s.call (.write .myTxData 32)
  if w then
    (true, s.call (.read .AckPayload 32))
  else
    (false, s)

/-- The function `void Rx_Mode(void)`. -/
def Rx_Mode (s : State) : State :=
  let s := s.call (.setAutoAck true)
  let s := s.call (.setChannel 52)
  let s := s.call (.setPayloadSize 32)
  let s := s.call (.openReadingPipe 1 pipeAddr)
  let s := s.call .enableDynamicPayloads
  let s := s.call .enableAckPayload
  let s := s.call .startListening
  HAL_GPIO_WritePin true s

/-- The function `bool Receive_Data(void)`; `a` is what `NRF24_available` answers. -/
def Receive_Data (a : Bool) (s : State) : Bool × State :=
  let s := s.call .available
  if a then
    let s := s.call (.read .myRxData 32)
    let s := s.call (.writeAckPayload 1 .myAckPayload 32)
    let s := { s with count := inc32 s.count }
    (true, s)
  else
    (false, s)

/-- The `while (coun < 5)` loop of `main`, entered with the local `coun`.
`ws` is the stream of answers `NRF24_write` gives from here on; `none` when
the fuel is used up. -/
def sendLoop : Nat → (Nat → Bool) → Int → State → Option State
  | 0, _, _, _ => none
  | fuel + 1, ws, coun, s =>
    if coun < 5 then
      match Send_Data (ws 0) s with
      | (true, s) =>
        let s := Rx_Mode s
        let s := HAL_Delay 200 s
        some s
      | (false, s) =>
        let s := if coun = 5 then Rx_Mode s else s
        let s := HAL_Delay 200 s
        sendLoop fuel (fun i => ws (i + 1)) (coun + 1) s
    else
      some s

/-- One pass through the body of the `while (1)` of `main`. `a` is the answer
of the poll in `Receive_Data`, `ws` the answers of the writes that follow;
`none` when the fuel of the send loop is used up. -/
def mainIteration (fuel : Nat) (a : Bool) (ws : Nat → Bool) (s : State) : Option State :=
  match Receive_Data a s with
  | (true, s) =>
    let s := Tx_Mode s
    (sendLoop fuel ws 0 s).map Rx_Mode
  | (false, s) =>
    some (HAL_Delay 200 s)

/-- The part of `main` before the `while (1)`. -/
def mainInit (s : State) : State :=
  let s := s.call .init
  let s := Rx_Mode s
  s.call .printRadioSettings

end Slave

namespace Master

/-- The calls `nrf24_config_mode` issues, in order. -/
def configModeCalls (transmit_mode : Bool) : List Call :=
  (if transmit_mode then [Call.stopListening, Call.openWritingPipe SlaveAddrs]
   else [Call.startListening, Call.openReadingPipe 1 SlaveAddrs]) ++
  [.setAutoAck true, .setChannel 52, .setPayloadSize 32, .enableDynamicPayloads,
   .enableAckPayload]

/-- The calls of `n` polls that find nothing, each followed by its 200 ms
delay. -/
def missCalls : Nat → List Call
  | 0 => []
  | n + 1 => .available :: .delay 200 :: missCalls n

/-- The radio once `nrf24_config_mode(RX_MODE)` has run on `r`. -/
def listenRadio (r : Radio) : Radio :=
  { r with listening := true, readingPipe := some (1, SlaveAddrs), autoAck := true,
           channel := 52, payloadSize := 32, dynamicPayloads := true, ackPayloads := true }

/-- The radio once `nrf24_config_mode(TX_MODE)` has run on `r`. -/
def transmitRadio (r : Radio) : Radio :=
  { r with listening := false, writingPipe := some SlaveAddrs, autoAck := true,
           channel := 52, payloadSize := 32, dynamicPayloads := true, ackPayloads := true }

/-- The state in which `loop` reaches its last statement when the write
succeeded and none of the five polls found a payload. -/
def afterNoAck (s : State) : State :=
  { DataCount := s.DataCount, waitCount := 5, C_ERROR_COUNT := s.C_ERROR_COUNT,
    errorFlag := true, radio := listenRadio s.radio,
    log := s.log ++ ([.write .myTxData 32, .read .AckPayload 32] ++ configModeCalls RX_MODE
            ++ missCalls 5) }

/-- The state in which `loop` reaches its last statement when the write
succeeded and poll `k` was the first to find a payload. -/
def afterSuccess (k : Nat) (s : State) : State :=
  { DataCount := inc32 s.DataCount, waitCount := k, C_ERROR_COUNT := s.C_ERROR_COUNT,
    errorFlag := false, radio := transmitRadio (listenRadio s.radio),
    log := s.log ++ ([.write .myTxData 32, .read .AckPayload 32] ++ configModeCalls RX_MODE
            ++ missCalls (k - 1)
            ++ [.available, .read .myRxData 32, .writeAckPayload 1 .myAckPayload 32]
            ++ configModeCalls TX_MODE ++ [.delay 200]) }

/-- The state in which `loop` reaches its last statement when the write
failed. -/
def afterSendFailed (s : State) : State :=
  { s with errorFlag := true, log := s.log ++ [.write .myTxData 32, .delay 200] }

end Master

namespace Slave

/-- The calls `Tx_Mode` issues, in order. -/
def txModeCalls : List Call :=
  [.stopListening, .openWritingPipe pipeAddr, .setAutoAck true, .setChannel 52,
   .setPayloadSize 32, .enableDynamicPayloads, .enableAckPayload, .gpioWritePin 5 false]

/-- The calls `Rx_Mode` issues, in order. -/
def rxModeCalls : List Call :=
  [.setAutoAck true, .setChannel 52, .setPayloadSize 32, .openReadingPipe 1 pipeAddr,
   .enableDynamicPayloads, .enableAckPayload, .startListening, .gpioWritePin 5 true]

/-- The calls of `n` refused writes, each followed by its 200 ms delay. -/
def refusedCalls : Nat → List Call
  | 0 => []
  | n + 1 => .write .myTxData 32 :: .delay 200 :: refusedCalls n

/-- The radio once `Tx_Mode` and then `Rx_Mode` have run: between them they
set every field. -/
def servedRadio : Radio :=
  { listening := true, writingPipe := some pipeAddr, readingPipe := some (1, pipeAddr),
    autoAck := true, channel := 52, payloadSize := 32, dynamicPayloads := true,
    ackPayloads := true }

/-- The state at the end of an iteration that received a message and whose
write number `j` was the first to be accepted. -/
def afterSent (j : Nat) (s : State) : State :=
  { count := inc32 s.count, radio := servedRadio, pin5 := true,
    log := s.log ++ ([.available, .read .myRxData 32, .writeAckPayload 1 .myAckPayload 32]
            ++ txModeCalls ++ refusedCalls (j - 1)
            ++ [.write .myTxData 32, .read .AckPayload 32] ++ rxModeCalls ++ [.delay 200]
            ++ rxModeCalls) }

/-- The state at the end of an iteration that received a message and whose
five writes were all refused. -/
def afterExhausted (s : State) : State :=
  { count := inc32 s.count, radio := servedRadio, pin5 := true,
    log := s.log ++ ([.available, .read .myRxData 32, .writeAckPayload 1 .myAckPayload 32]
            ++ txModeCalls ++ refusedCalls 5 ++ rxModeCalls) }

end Slave

/-! ## Concrete inputs -/

/-- A radio on which nothing has been configured. -/
def blankRadio : Radio :=
  { listening := false, writingPipe := none, readingPipe := none, autoAck := false,
    channel := 0, payloadSize := 0, dynamicPayloads := false, ackPayloads := false }

/-- A cycle whose write is accepted and whose polls never find a payload. -/
def Master.silent : Master.Link := { write := true, avail := fun _ => false }

/-- A cycle whose write is accepted and whose poll number `k` (counted from 1)
is the only one to find a payload. -/
def Master.replyAt (k : Nat) : Master.Link := { write := true, avail := fun i => decide (i + 1 = k) }

/-- A cycle whose write is refused. -/
def Master.refused : Master.Link := { write := false, avail := fun _ => false }

/-- The initiator as `app_main` enters its `while (1)`: the initialised
globals, then `setup`. -/
def Master.booted : Master.State := Master.setup (Master.fresh blankRadio)

/-- The responder as `main` enters its `while (1)`. -/
def Slave.booted : Slave.State :=
  Slave.mainInit { count := 0, radio := blankRadio, pin5 := false, log := [] }

/-! ## Lemmas -/

theorem inc32_eq (x : Int) (hlo : -2 ^ 31 ≤ x) (hhi : x < 2 ^ 31 - 1) : inc32 x = x + 1 := by
  unfold inc32
  omega

theorem sleepMs_append (a b : List Call) : sleepMs (a ++ b) = sleepMs a + sleepMs b := by
  induction a with
  | nil => simp [sleepMs]
  | cons c cs ih =>
    cases c <;> simp [sleepMs, ih]
    omega

theorem polls_append (a b : List Call) : polls (a ++ b) = polls a + polls b := by
  simp [polls]

theorem restarts_append (a b : List Call) : restarts (a ++ b) = restarts a + restarts b := by
  simp [restarts]

theorem writes_append (a b : List Call) : writes (a ++ b) = writes a + writes b := by
  simp [writes]

theorem reads_append (a b : List Call) : reads (a ++ b) = reads a + reads b := by
  simp [reads]

theorem ackWrites_append (a b : List Call) : ackWrites (a ++ b) = ackWrites a + ackWrites b := by
  simp [ackWrites]

theorem configCalls_append (a b : List Call) :
    configCalls (a ++ b) = configCalls a + configCalls b := by
  simp [configCalls]

namespace Master

theorem loop_noAck (n : Nat) (l : Link) (s : State) (hw : l.write = true)
    (hav : ∀ i, i < 5 → l.avail i = false) :
    loop (n + 6) l s = some (AnnounceAndRestartIfNecessary true 5 (afterNoAck s)) := by
  have h0 := hav 0 (by omega)
  have h1 := hav 1 (by omega)
  have h2 := hav 2 (by omega)
  have h3 := hav 3 (by omega)
  have h4 := hav 4 (by omega)
  simp [loop, ShootTheMessage, awaitAck, ReceiveAndAcknowledgeData, nrf24_config_mode,
    vTaskDelay, State.call, Radio.apply, RX_MODE, hw, h0, h1, h2, h3, h4, afterNoAck,
    configModeCalls, missCalls, listenRadio]

theorem loop_success (n k : Nat) (l : Link) (s : State) (hw : l.write = true)
    (hk1 : 1 ≤ k) (hk5 : k ≤ 5) (hmiss : ∀ i, i + 1 < k → l.avail i = false)
    (hhit : l.avail (k - 1) = true) :
    loop (n + 6) l s = some (AnnounceAndRestartIfNecessary false k (afterSuccess k s)) := by
  have h0 := hmiss 0
  have h1 := hmiss 1
  have h2 := hmiss 2
  have h3 := hmiss 3
  interval_cases k <;>
  simp at h0 h1 h2 h3 hhit <;>
  simp [loop, ShootTheMessage, awaitAck, ReceiveAndAcknowledgeData, nrf24_config_mode,
    vTaskDelay, State.call, Radio.apply, RX_MODE, TX_MODE, hw, h0, h1, h2, h3, hhit,
    afterSuccess, configModeCalls, missCalls, listenRadio, transmitRadio]

theorem loop_sendFailed (fuel : Nat) (l : Link) (s : State) (hw : l.write = false) :
    loop fuel l s
      = some (AnnounceAndRestartIfNecessary true s.waitCount (afterSendFailed s)) := by
  simp [loop, ShootTheMessage, vTaskDelay, State.call, Radio.apply, hw, afterSendFailed]

theorem countdown_log (i : Nat) (s : State) :
    (countdown i s).log = s.log ++ List.replicate (i + 1) (.delay 1000) := by
  induction i generalizing s with
  | zero => simp [countdown, vTaskDelay, State.call]
  | succ i ih =>
    rw [countdown, ih]
    simp [vTaskDelay, State.call, List.replicate_succ]

theorem countdown_fields (i : Nat) (s : State) :
    (countdown i s).DataCount = s.DataCount ∧ (countdown i s).waitCount = s.waitCount ∧
    (countdown i s).C_ERROR_COUNT = s.C_ERROR_COUNT ∧
    (countdown i s).errorFlag = s.errorFlag ∧ (countdown i s).radio = s.radio := by
  induction i generalizing s with
  | zero => simp [countdown, vTaskDelay, State.call, Radio.apply]
  | succ i ih =>
    rw [countdown]
    have h := ih (vTaskDelay 1000 s)
    simpa [vTaskDelay, State.call, Radio.apply] using h

theorem countdown_DataCount (i : Nat) (s : State) :
    (countdown i s).DataCount = s.DataCount := (countdown_fields i s).1

theorem countdown_waitCount (i : Nat) (s : State) :
    (countdown i s).waitCount = s.waitCount := (countdown_fields i s).2.1

theorem countdown_C_ERROR_COUNT (i : Nat) (s : State) :
    (countdown i s).C_ERROR_COUNT = s.C_ERROR_COUNT := (countdown_fields i s).2.2.1

theorem countdown_errorFlag (i : Nat) (s : State) :
    (countdown i s).errorFlag = s.errorFlag := (countdown_fields i s).2.2.2.1

theorem countdown_radio (i : Nat) (s : State) :
    (countdown i s).radio = s.radio := (countdown_fields i s).2.2.2.2

theorem count_restart_missCalls (j : Nat) : List.count Call.restart (missCalls j) = 0 := by
  induction j with
  | zero => rfl
  | succ j ih => simpa [missCalls] using ih

theorem announce_within (ef : Bool) (wc : Int) (s : State) (h : wc ≠ 5) :
    AnnounceAndRestartIfNecessary ef wc s = .returned { s with C_ERROR_COUNT := 0 } := by
  simp [AnnounceAndRestartIfNecessary, announceBody, h]

theorem announce_limit_error (s : State) (h : inc32 s.C_ERROR_COUNT < 10) :
    AnnounceAndRestartIfNecessary true 5 s
      = .returned { s with C_ERROR_COUNT := inc32 s.C_ERROR_COUNT } := by
  simp [AnnounceAndRestartIfNecessary, announceBody, not_le.mpr h]

theorem announce_limit_restart (s : State) (h : 10 ≤ inc32 s.C_ERROR_COUNT) :
    AnnounceAndRestartIfNecessary true 5 s
      = .restarted
          ((countdown 5 { s with C_ERROR_COUNT := inc32 s.C_ERROR_COUNT }).call .restart) := by
  simp [AnnounceAndRestartIfNecessary, announceBody, h]

theorem announce_limit_clean (s : State) (h : s.C_ERROR_COUNT < 10) :
    AnnounceAndRestartIfNecessary false 5 s = .returned s := by
  simp [AnnounceAndRestartIfNecessary, announceBody, not_le.mpr h]

theorem announce_limit_clean_restart (s : State) (h : 10 ≤ s.C_ERROR_COUNT) :
    AnnounceAndRestartIfNecessary false 5 s
      = .restarted ((countdown 5 s).call .restart) := by
  simp [AnnounceAndRestartIfNecessary, announceBody, h]

theorem runLoop_append (fuel : Nat) (a b : List Link) (s : State) :
    runLoop fuel (a ++ b) s
      = match runLoop fuel a s with
        | some (.returned s') => runLoop fuel b s'
        | r => r := by
  induction a generalizing s with
  | nil => simp [runLoop]
  | cons l ls ih =>
    simp only [List.cons_append, runLoop]
    cases hl : loop fuel l s with
    | none => simp
    | some o =>
      cases o with
      | returned s1 => simpa using ih s1
      | restarted s1 => simp

/-- A run of windows that all fail, short enough to stay under the threshold:
every cycle returns, each adds one to the counter, none restarts. -/
theorem runLoop_failed_windows (n : Nat) (ls : List Link) (s : State)
    (hfail : ∀ l ∈ ls, l.write = true ∧ ∀ i, i < 5 → l.avail i = false)
    (h0 : 0 ≤ s.C_ERROR_COUNT) (h10 : s.C_ERROR_COUNT + ls.length < 10) :
    ∃ s', runLoop (n + 6) ls s = some (.returned s') ∧
      s'.C_ERROR_COUNT = s.C_ERROR_COUNT + ls.length ∧
      restarts s'.log = restarts s.log := by
  induction ls generalizing s with
  | nil => exact ⟨s, by simp [runLoop]⟩
  | cons l ls ih =>
    have hl := hfail l (List.mem_cons_self _ _)
    simp only [List.length_cons, Nat.cast_add, Nat.cast_one] at h10
    have hinc : inc32 s.C_ERROR_COUNT = s.C_ERROR_COUNT + 1 :=
      inc32_eq _ (by omega) (by omega)
    have hstep : loop (n + 6) l s
        = some (.returned { afterNoAck s with C_ERROR_COUNT := s.C_ERROR_COUNT + 1 }) := by
      rw [loop_noAck n l s hl.1 hl.2, announce_limit_error _ (by simp [afterNoAck]; omega)]
      simp [afterNoAck, hinc]
    obtain ⟨s', hrun, hc, hr⟩ :=
      ih { afterNoAck s with C_ERROR_COUNT := s.C_ERROR_COUNT + 1 }
        (fun l' hl' => hfail l' (List.mem_cons_of_mem _ hl')) (by simp; omega)
        (by simp; omega)
    refine ⟨s', ?_, ?_, ?_⟩
    · simp [runLoop, hstep, hrun]
    · simp at hc
      simp [hc]
      omega
    · rw [hr]
      simp [afterNoAck, restarts_append, configModeCalls, missCalls, RX_MODE, restarts]

theorem count_available_missCalls (j : Nat) :
    List.count Call.available (missCalls j) = j := by
  induction j with
  | zero => rfl
  | succ j ih => simp [missCalls, ih]

theorem sleepMs_missCalls (j : Nat) : sleepMs (missCalls j) = 200 * j := by
  induction j with
  | zero => rfl
  | succ j ih =>
    simp [missCalls, sleepMs, ih]
    omega

/-- A window that fails when the counter stands at 9: the escalation step
raises it to 10 and restarts. -/
theorem loop_noAck_restart (n : Nat) (l : Link) (s : State) (hw : l.write = true)
    (hav : ∀ i, i < 5 → l.avail i = false) (hC : s.C_ERROR_COUNT = 9) :
    ∃ s', loop (n + 6) l s = some (.restarted s') ∧ s'.C_ERROR_COUNT = 10 ∧
      restarts s'.log = restarts s.log + 1 ∧ s'.log.getLast? = some .restart := by
  have hinc : inc32 (afterNoAck s).C_ERROR_COUNT = 10 := by
    simp [afterNoAck, hC, inc32]
  refine ⟨(countdown 5 { afterNoAck s with
      C_ERROR_COUNT := inc32 (afterNoAck s).C_ERROR_COUNT }).call .restart, ?_, ?_, ?_, ?_⟩
  · rw [loop_noAck n l s hw hav, announce_limit_restart _ (by rw [hinc])]
  · simp [State.call, hinc, countdown_C_ERROR_COUNT]
  · simp [State.call, countdown_log, restarts_append, afterNoAck, configModeCalls, missCalls,
      RX_MODE, restarts]
  · simp [State.call]

theorem first_hit (av : Nat → Bool) :
    (∀ i, i < 5 → av i = false) ∨
    ∃ k, 1 ≤ k ∧ k ≤ 5 ∧ (∀ i, i + 1 < k → av i = false) ∧ av (k - 1) = true := by
  by_cases h : ∃ j, j < 5 ∧ av j = true
  · right
    refine ⟨Nat.find h + 1, by omega, ?_, ?_, ?_⟩
    · have := (Nat.find_spec h).1
      omega
    · intro i hi
      have hmin := Nat.find_min h (show i < Nat.find h by omega)
      have hlt := (Nat.find_spec h).1
      cases hav : av i with
      | false => rfl
      | true => exact absurd ⟨by omega, hav⟩ hmin
    · simpa using (Nat.find_spec h).2
  · left
    intro i hi
    cases hav : av i with
    | false => rfl
    | true => exact absurd ⟨i, hi, hav⟩ h

/-- The five ways a call of `AnnounceAndRestartIfNecessary` can go. -/
theorem announce_cases (ef : Bool) (wc : Int) (s : State) :
    AnnounceAndRestartIfNecessary ef wc s = .returned { s with C_ERROR_COUNT := 0 } ∨
    AnnounceAndRestartIfNecessary ef wc s = .returned s ∨
    AnnounceAndRestartIfNecessary ef wc s
      = .returned { s with C_ERROR_COUNT := inc32 s.C_ERROR_COUNT } ∨
    AnnounceAndRestartIfNecessary ef wc s = .restarted ((countdown 5 s).call .restart) ∨
    AnnounceAndRestartIfNecessary ef wc s
      = .restarted
          ((countdown 5 { s with C_ERROR_COUNT := inc32 s.C_ERROR_COUNT }).call .restart) := by
  by_cases h5 : wc = 5
  · subst h5
    cases ef with
    | false =>
      by_cases h10 : 10 ≤ s.C_ERROR_COUNT
      · exact Or.inr (Or.inr (Or.inr (Or.inl (announce_limit_clean_restart s h10))))
      · exact Or.inr (Or.inl (announce_limit_clean s (not_le.mp h10)))
    | true =>
      by_cases h10 : 10 ≤ inc32 s.C_ERROR_COUNT
      · exact Or.inr (Or.inr (Or.inr (Or.inr (announce_limit_restart s h10))))
      · exact Or.inr (Or.inr (Or.inl (announce_limit_error s (not_le.mp h10))))
  · exact Or.inl (announce_within ef wc s h5)

theorem announce_log (ef : Bool) (wc : Int) (s : State) :
    ∃ rest, (AnnounceAndRestartIfNecessary ef wc s).state.log = s.log ++ rest := by
  rcases announce_cases ef wc s with h | h | h | h | h <;> rw [h]
  · exact ⟨[], by simp [Outcome.state]⟩
  · exact ⟨[], by simp [Outcome.state]⟩
  · exact ⟨[], by simp [Outcome.state]⟩
  · exact ⟨List.replicate 6 (.delay 1000) ++ [.restart], by
      simp [Outcome.state, State.call, countdown_log]⟩
  · exact ⟨List.replicate 6 (.delay 1000) ++ [.restart], by
      simp [Outcome.state, State.call, countdown_log]⟩

theorem announce_radio (ef : Bool) (wc : Int) (s : State) :
    (AnnounceAndRestartIfNecessary ef wc s).state.radio = s.radio := by
  rcases announce_cases ef wc s with h | h | h | h | h <;> rw [h] <;>
    simp [Outcome.state, State.call, Radio.apply, countdown_radio]

/-- With enough fuel every cycle produces a result, and the first call it
adds to the log is its `NRF24_write`. -/
theorem loop_first_call (n : Nat) (l : Link) (s : State) :
    ∃ o rest, loop (n + 6) l s = some o ∧
      o.state.log = s.log ++ Call.write .myTxData 32 :: rest := by
  cases hw : l.write with
  | false =>
    obtain ⟨rest, hrest⟩ := announce_log true s.waitCount (afterSendFailed s)
    exact ⟨_, _, loop_sendFailed _ l s hw, by rw [hrest]; simp [afterSendFailed]; rfl⟩
  | true =>
    rcases first_hit l.avail with hav | ⟨k, hk1, hk5, hmiss, hhit⟩
    · obtain ⟨rest, hrest⟩ := announce_log true 5 (afterNoAck s)
      exact ⟨_, _, loop_noAck n l s hw hav, by rw [hrest]; simp [afterNoAck]; rfl⟩
    · obtain ⟨rest, hrest⟩ := announce_log false k (afterSuccess k s)
      exact ⟨_, _, loop_success n k l s hw hk1 hk5 hmiss hhit, by
        rw [hrest]; simp [afterSuccess]; rfl⟩

/-! ## Properties of the initiator -/

/-- C1: from a state whose cumulative error counter is 0 (the fresh process
state in particular), in a run of ten cycles whose write succeeds and whose
five polls all find nothing, the first `i` cycles, for every `i` up to 9, all
return, leave the counter at `i` and add no restart call to the log; the tenth
cycle ends in the restart, with the counter at 10, exactly one restart call
added to the log, and that call the last one made. -/
theorem C1_restart_exactly_at_tenth_failed_window (fuel : Nat) (hfuel : 6 ≤ fuel)
    (s : State) (hC : s.C_ERROR_COUNT = 0) (ls : List Link) (hlen : ls.length = 10)
    (hfail : ∀ l ∈ ls, l.write = true ∧ ∀ i, i < 5 → l.avail i = false) :
    (∀ i, i ≤ 9 → ∃ s', runLoop fuel (ls.take i) s = some (.returned s') ∧
        s'.C_ERROR_COUNT = i ∧ restarts s'.log = restarts s.log) ∧
    (∃ s', runLoop fuel ls s = some (.restarted s') ∧ s'.C_ERROR_COUNT = 10 ∧
        restarts s'.log = restarts s.log + 1 ∧ s'.log.getLast? = some .restart) := by
  obtain ⟨n, rfl⟩ := Nat.exists_eq_add_of_le' hfuel
  have hfirst : ∀ i, i ≤ 9 → ∃ s', runLoop (n + 6) (ls.take i) s = some (.returned s') ∧
      s'.C_ERROR_COUNT = i ∧ restarts s'.log = restarts s.log := by
    intro i hi
    have hlen_i : (ls.take i).length = i := by simp [List.length_take, hlen]; omega
    obtain ⟨s', hrun, hc, hr⟩ := runLoop_failed_windows n (ls.take i) s
      (fun l hl => hfail l (List.mem_of_mem_take hl)) (by omega) (by rw [hC, hlen_i]; omega)
    exact ⟨s', hrun, by rw [hc, hC, hlen_i]; simp, hr⟩
  refine ⟨hfirst, ?_⟩
  obtain ⟨s9, hrun9, hc9, hr9⟩ := hfirst 9 (le_refl 9)
  have hdrop : ∃ l, ls.drop 9 = [l] := by
    have h1 : (ls.drop 9).length = 1 := by simp [hlen]
    match hd : ls.drop 9, h1 with
    | [l], _ => exact ⟨l, rfl⟩
  obtain ⟨l, hl⟩ := hdrop
  have hmem : l ∈ ls := List.mem_of_mem_drop (by rw [hl]; simp)
  obtain ⟨s', hstep, hc, hr, hlast⟩ :=
    loop_noAck_restart n l s9 (hfail l hmem).1 (hfail l hmem).2 (by simpa using hc9)
  refine ⟨s', ?_, hc, by rw [hr, hr9], hlast⟩
  have hsplit : ls = ls.take 9 ++ [l] := by rw [← hl, List.take_append_drop]
  rw [hsplit, runLoop_append, hrun9]
  simp [runLoop, hstep]

/-- C1, on the booted initiator and ten silent cycles. -/
theorem C1_restart_exactly_at_tenth_failed_window_witness :
    (∀ i, i ≤ 9 → ∃ s', runLoop 6 ((List.replicate 10 silent).take i) booted
        = some (.returned s') ∧
        s'.C_ERROR_COUNT = i ∧ restarts s'.log = restarts booted.log) ∧
    (∃ s', runLoop 6 (List.replicate 10 silent) booted = some (.restarted s') ∧
        s'.C_ERROR_COUNT = 10 ∧
        restarts s'.log = restarts booted.log + 1 ∧ s'.log.getLast? = some .restart) :=
  C1_restart_exactly_at_tenth_failed_window 6 (le_refl 6) booted rfl
    (List.replicate 10 silent) rfl
    (fun l hl => by rw [List.eq_of_mem_replicate hl]; exact ⟨rfl, fun _ _ => rfl⟩)

/-- C2 as stated fails when the reply is found on the fifth poll: on the booted
initiator, nine silent cycles followed by a cycle whose fifth poll finds the
payload all return (so none restarts), the last one with `waitCount = 5` and
`errorFlag` cleared, and the counter stands at 9, not at 0. -/
theorem C2_counter_stays_at_nine_on_fifth_poll :
    (runLoop 6 (List.replicate 9 silent ++ [replyAt 5]) booted).map
        (fun o => (o.didReturn, o.state.waitCount, o.state.errorFlag, o.state.C_ERROR_COUNT))
      = some (true, 5, false, 9) := by
  decide

/-- C2, amended: from a state whose counter is 0, after nine failed windows
and one window whose write succeeds and whose poll `k` (1 to 5) is the first
to find a payload, all ten cycles return and no restart call is logged; the
counter is 0 when `k` is at most 4 and is left at 9 when `k` is 5. -/
theorem C2_nine_failed_then_success (fuel : Nat) (hfuel : 6 ≤ fuel)
    (s : State) (hC : s.C_ERROR_COUNT = 0) (ls : List Link) (hlen : ls.length = 9)
    (hfail : ∀ l ∈ ls, l.write = true ∧ ∀ i, i < 5 → l.avail i = false)
    (l : Link) (k : Nat) (hw : l.write = true) (hk1 : 1 ≤ k) (hk5 : k ≤ 5)
    (hmiss : ∀ i, i + 1 < k → l.avail i = false) (hhit : l.avail (k - 1) = true) :
    ∃ s', runLoop fuel (ls ++ [l]) s = some (.returned s') ∧
      restarts s'.log = restarts s.log ∧
      (k ≤ 4 → s'.C_ERROR_COUNT = 0) ∧ (k = 5 → s'.C_ERROR_COUNT = 9) := by
  obtain ⟨n, rfl⟩ := Nat.exists_eq_add_of_le' hfuel
  obtain ⟨s9, hrun9, hc9, hr9⟩ :=
    runLoop_failed_windows n ls s hfail (by omega) (by rw [hC, hlen]; norm_num)
  have hc9 : s9.C_ERROR_COUNT = 9 := by rw [hc9, hC, hlen]; norm_num
  have hlog : restarts (afterSuccess k s9).log = restarts s.log := by
    rw [← hr9]
    simp [afterSuccess, restarts, count_restart_missCalls, configModeCalls, RX_MODE, TX_MODE]
  by_cases h5 : k = 5
  · subst h5
    refine ⟨afterSuccess 5 s9, ?_, hlog, by omega, fun _ => by simpa [afterSuccess] using hc9⟩
    rw [runLoop_append, hrun9]
    simp only [runLoop]
    rw [loop_success n 5 l s9 hw hk1 hk5 hmiss hhit]
    have hlt : (afterSuccess 5 s9).C_ERROR_COUNT < 10 := by simp [afterSuccess, hc9]
    have := announce_limit_clean (afterSuccess 5 s9) hlt
    simp at this
    simp [this]
  · refine ⟨{ afterSuccess k s9 with C_ERROR_COUNT := 0 }, ?_, hlog, fun _ => rfl,
      fun h => absurd h h5⟩
    rw [runLoop_append, hrun9]
    simp only [runLoop]
    rw [loop_success n k l s9 hw hk1 hk5 hmiss hhit,
      announce_within false k _ (by intro h; apply h5; exact_mod_cast h)]

/-- C2 amended, on the booted initiator with the reply on the third poll. -/
theorem C2_nine_failed_then_success_witness :
    ∃ s', runLoop 6 (List.replicate 9 silent ++ [replyAt 3]) booted = some (.returned s') ∧
      restarts s'.log = restarts booted.log ∧
      (3 ≤ 4 → s'.C_ERROR_COUNT = 0) ∧ (3 = 5 → s'.C_ERROR_COUNT = 9) :=
  C2_nine_failed_then_success 6 (le_refl 6) booted rfl (List.replicate 9 silent) rfl
    (fun l hl => by rw [List.eq_of_mem_replicate hl]; exact ⟨rfl, fun _ _ => rfl⟩)
    (replyAt 3) 3 rfl (by decide) (by decide)
    (fun i hi => by simp [replyAt]; omega) (by simp [replyAt])

/-- C3: in every state and with any fuel, a cycle whose `NRF24_write` is
refused produces a result; `ShootTheMessage` reports failure and the cycle
ends with `errorFlag` set, one more write in the log, and no poll, no read, no
acknowledgement payload and no mode-switch call added to it, with the radio
configuration and `DataCount` as they were. -/
theorem C3_refused_write_skips_wait_loop (fuel : Nat) (l : Link) (s : State)
    (hw : l.write = false) :
    (ShootTheMessage l.write s).1 = false ∧
    ∃ o, loop fuel l s = some o ∧ o.state.errorFlag = true ∧
      writes o.state.log = writes s.log + 1 ∧
      polls o.state.log = polls s.log ∧ reads o.state.log = reads s.log ∧
      ackWrites o.state.log = ackWrites s.log ∧
      configCalls o.state.log = configCalls s.log ∧
      o.state.radio = s.radio ∧ o.state.DataCount = s.DataCount := by
  refine ⟨by simp [ShootTheMessage, hw], _, loop_sendFailed fuel l s hw, ?_⟩
  by_cases h5 : s.waitCount = 5
  · by_cases h10 : 10 ≤ inc32 (afterSendFailed s).C_ERROR_COUNT
    · rw [h5, announce_limit_restart _ h10]
      simp [Outcome.state, State.call, Radio.apply, countdown_log, afterSendFailed,
        countdown_DataCount, countdown_errorFlag, countdown_radio,
        writes_append, polls_append, reads_append, ackWrites_append, configCalls_append,
        writes, polls, reads, ackWrites, configCalls]
    · rw [h5, announce_limit_error _ (not_le.mp h10)]
      simp [Outcome.state, afterSendFailed, writes_append, polls_append, reads_append,
        ackWrites_append, configCalls_append, writes, polls, reads, ackWrites, configCalls]
  · rw [announce_within _ _ _ h5]
    simp [Outcome.state, afterSendFailed, writes_append, polls_append, reads_append,
      ackWrites_append, configCalls_append, writes, polls, reads, ackWrites, configCalls]

/-- C3, on the booted initiator. -/
theorem C3_refused_write_skips_wait_loop_witness :
    (ShootTheMessage refused.write booted).1 = false ∧
    ∃ o, loop 0 refused booted = some o ∧ o.state.errorFlag = true ∧
      writes o.state.log = writes booted.log + 1 ∧
      polls o.state.log = polls booted.log ∧ reads o.state.log = reads booted.log ∧
      ackWrites o.state.log = ackWrites booted.log ∧
      configCalls o.state.log = configCalls booted.log ∧
      o.state.radio = booted.radio ∧ o.state.DataCount = booted.DataCount :=
  C3_refused_write_skips_wait_loop 0 refused booted rfl

/-- C4: whatever the counter was before (0 to 9 in particular), a cycle whose
write succeeds and whose poll `k`, for `k` from 1 to 4, is the first to find a
payload returns after exactly `k` polls with `waitCount = k`, the error flag
cleared, `C_ERROR_COUNT` equal to 0 and no restart call logged. -/
theorem C4_early_success_resets_counter (fuel : Nat) (hfuel : 6 ≤ fuel) (s : State)
    (l : Link) (k : Nat) (hw : l.write = true) (hk1 : 1 ≤ k) (hk4 : k ≤ 4)
    (hmiss : ∀ i, i + 1 < k → l.avail i = false) (hhit : l.avail (k - 1) = true) :
    ∃ s', loop fuel l s = some (.returned s') ∧ polls s'.log = polls s.log + k ∧
      s'.waitCount = k ∧ s'.errorFlag = false ∧ s'.C_ERROR_COUNT = 0 ∧
      restarts s'.log = restarts s.log := by
  obtain ⟨n, rfl⟩ := Nat.exists_eq_add_of_le' hfuel
  refine ⟨{ afterSuccess k s with C_ERROR_COUNT := 0 }, ?_, ?_, rfl, rfl, rfl, ?_⟩
  · rw [loop_success n k l s hw hk1 (by omega) hmiss hhit,
      announce_within false k _ (by intro h; have : k = 5 := by exact_mod_cast h
                                    omega)]
  · simp [afterSuccess, polls, count_available_missCalls, configModeCalls, RX_MODE, TX_MODE]
    omega
  · simp [afterSuccess, restarts, count_restart_missCalls, configModeCalls, RX_MODE, TX_MODE]

/-- C4, on the booted initiator with the reply on the second poll. -/
theorem C4_early_success_resets_counter_witness :
    ∃ s', loop 6 (replyAt 2) booted = some (.returned s') ∧
      polls s'.log = polls booted.log + 2 ∧
      s'.waitCount = (2 : Nat) ∧ s'.errorFlag = false ∧ s'.C_ERROR_COUNT = 0 ∧
      restarts s'.log = restarts booted.log :=
  C4_early_success_resets_counter 6 (le_refl 6) booted (replyAt 2) 2 rfl (by decide)
    (by decide) (fun i hi => by simp [replyAt]; omega) (by simp [replyAt])

/-- C5: with the counter at `c < 9` (an `int`, so at least `-2^31`), a cycle
whose write succeeds (`ShootTheMessage` reports success) and whose five polls
all find nothing returns after exactly 5 polls and 5 x 200 = 1000 ms of
requested sleep, with `waitCount = 5`, the error flag set, the radio
listening, the counter at `c + 1` and no restart call logged. -/
theorem C5_silent_peer_is_no_ack (fuel : Nat) (hfuel : 6 ≤ fuel) (s : State) (l : Link)
    (hw : l.write = true) (hav : ∀ i, i < 5 → l.avail i = false)
    (c : Int) (hc : s.C_ERROR_COUNT = c) (hlo : -2 ^ 31 ≤ c) (hhi : c < 9) :
    (ShootTheMessage l.write s).1 = true ∧
    ∃ s', loop fuel l s = some (.returned s') ∧ polls s'.log = polls s.log + 5 ∧
      sleepMs s'.log = sleepMs s.log + 1000 ∧ s'.waitCount = 5 ∧ s'.errorFlag = true ∧
      s'.radio.listening = true ∧ s'.C_ERROR_COUNT = c + 1 ∧
      restarts s'.log = restarts s.log := by
  obtain ⟨n, rfl⟩ := Nat.exists_eq_add_of_le' hfuel
  have hinc : inc32 (afterNoAck s).C_ERROR_COUNT = c + 1 := by
    simp only [afterNoAck, hc]
    exact inc32_eq c hlo (by omega)
  refine ⟨by simp [ShootTheMessage, hw],
    { afterNoAck s with C_ERROR_COUNT := c + 1 }, ?_, ?_, ?_, rfl, rfl, rfl, rfl, ?_⟩
  · rw [loop_noAck n l s hw hav, announce_limit_error _ (by rw [hinc]; omega), hinc]
  · simp [afterNoAck, polls, count_available_missCalls, configModeCalls, RX_MODE]
  · simp [afterNoAck, sleepMs_append, sleepMs_missCalls, configModeCalls, RX_MODE, sleepMs]
  · simp [afterNoAck, restarts, count_restart_missCalls, configModeCalls, RX_MODE]

/-- C5, on the booted initiator, whose counter is 0. -/
theorem C5_silent_peer_is_no_ack_witness :
    (ShootTheMessage silent.write booted).1 = true ∧
    ∃ s', loop 6 silent booted = some (.returned s') ∧ polls s'.log = polls booted.log + 5 ∧
      sleepMs s'.log = sleepMs booted.log + 1000 ∧ s'.waitCount = 5 ∧ s'.errorFlag = true ∧
      s'.radio.listening = true ∧ s'.C_ERROR_COUNT = 0 + 1 ∧
      restarts s'.log = restarts booted.log :=
  C5_silent_peer_is_no_ack 6 (le_refl 6) booted silent rfl (fun _ _ => rfl) 0 rfl
    (by decide) (by decide)

/-- C8: whenever `AnnounceAndRestartIfNecessary` returns, the global
`errorFlag` is what it was before the call and the state differs from the
one before the call in `C_ERROR_COUNT` at most; when the wait limit was
reached, the assignment `errorFlag = false` has cleared the parameter copy
only. -/
theorem C8_error_flag_parameter_is_a_copy (errorFlag : Bool) (waitCount : Int)
    (s s' : State)
    (hret : AnnounceAndRestartIfNecessary errorFlag waitCount s = .returned s') :
    s'.errorFlag = s.errorFlag ∧
    s' = { s with C_ERROR_COUNT := s'.C_ERROR_COUNT } ∧
    (waitCount = 5 →
      (announceBody { errorFlag := errorFlag, waitCount := waitCount } s).1.errorFlag
        = false) := by
  have hcopy : waitCount = 5 →
      (announceBody { errorFlag := errorFlag, waitCount := waitCount } s).1.errorFlag
        = false := by
    intro h5
    simp only [announceBody, h5, if_true]
    split <;> split <;> rfl
  by_cases h5 : waitCount = 5
  · subst h5
    cases errorFlag with
    | false =>
      by_cases h10 : 10 ≤ s.C_ERROR_COUNT
      · rw [announce_limit_clean_restart s h10] at hret
        cases hret
      · rw [announce_limit_clean s (not_le.mp h10)] at hret
        cases hret
        exact ⟨rfl, rfl, hcopy⟩
    | true =>
      by_cases h10 : 10 ≤ inc32 s.C_ERROR_COUNT
      · rw [announce_limit_restart s h10] at hret
        cases hret
      · rw [announce_limit_error s (not_le.mp h10)] at hret
        cases hret
        exact ⟨rfl, rfl, hcopy⟩
  · rw [announce_within _ _ s h5] at hret
    cases hret
    exact ⟨rfl, rfl, hcopy⟩

/-- C8, on the booted initiator after a window that used up its five polls:
the call returns with the counter at 1 and the global flag still set. -/
theorem C8_error_flag_parameter_is_a_copy_witness :
    ({ booted with C_ERROR_COUNT := 1 } : State).errorFlag = booted.errorFlag ∧
    ({ booted with C_ERROR_COUNT := 1 } : State)
      = { booted with C_ERROR_COUNT := ({ booted with C_ERROR_COUNT := 1 } : State).C_ERROR_COUNT } ∧
    ((5 : Int) = 5 →
      (announceBody { errorFlag := true, waitCount := 5 } booted).1.errorFlag = false) :=
  C8_error_flag_parameter_is_a_copy true 5 booted { booted with C_ERROR_COUNT := 1 }
    (by decide)

/-- C9: with any fuel, a cycle whose write is refused produces a result and
leaves `waitCount` as the previous cycle left it; when that stale value is 5
the counter is incremented (as a signed 32-bit `++`), and otherwise the cycle
returns with the counter reset to 0. From a state with `waitCount = 0` and
the counter at 0, any number of consecutive cycles whose write is refused all
return, with the counter at 0, `waitCount` at 0 and no restart call logged. -/
theorem C9_refused_write_reuses_stale_waitCount (fuel : Nat) :
    (∀ (l : Link) (s : State), l.write = false →
      ∃ o, loop fuel l s = some o ∧ o.state.waitCount = s.waitCount ∧
        (s.waitCount = 5 → o.state.C_ERROR_COUNT = inc32 s.C_ERROR_COUNT) ∧
        (s.waitCount ≠ 5 → o.didReturn = true ∧ o.state.C_ERROR_COUNT = 0)) ∧
    (∀ (ls : List Link) (s : State), (∀ l ∈ ls, l.write = false) →
      s.waitCount = 0 → s.C_ERROR_COUNT = 0 →
      ∃ s', runLoop fuel ls s = some (.returned s') ∧ s'.C_ERROR_COUNT = 0 ∧
        s'.waitCount = 0 ∧ restarts s'.log = restarts s.log) := by
  constructor
  · intro l s hw
    refine ⟨_, loop_sendFailed fuel l s hw, ?_, ?_, ?_⟩
    · by_cases h5 : s.waitCount = 5
      · by_cases h10 : 10 ≤ inc32 (afterSendFailed s).C_ERROR_COUNT
        · rw [h5, announce_limit_restart _ h10]
          simp [Outcome.state, State.call, afterSendFailed, h5, countdown_waitCount]
        · rw [h5, announce_limit_error _ (not_le.mp h10)]
          simp [Outcome.state, afterSendFailed, h5]
      · rw [announce_within _ _ _ h5]
        simp [Outcome.state, afterSendFailed]
    · intro h5
      by_cases h10 : 10 ≤ inc32 (afterSendFailed s).C_ERROR_COUNT
      · rw [h5, announce_limit_restart _ h10]
        simp [Outcome.state, State.call, afterSendFailed, countdown_C_ERROR_COUNT]
      · rw [h5, announce_limit_error _ (not_le.mp h10)]
        simp [Outcome.state, afterSendFailed]
    · intro h5
      rw [announce_within _ _ _ h5]
      simp [Outcome.state, Outcome.didReturn]
  · intro ls
    induction ls with
    | nil =>
      intro s _ hwc hc
      exact ⟨s, rfl, hc, hwc, rfl⟩
    | cons l ls ih =>
      intro s hall hwc hc
      have hstep : loop fuel l s
          = some (.returned { afterSendFailed s with C_ERROR_COUNT := 0 }) := by
        rw [loop_sendFailed fuel l s (hall l (List.mem_cons_self _ _)),
          announce_within _ _ _ (by rw [hwc]; decide)]
      obtain ⟨s', hrun, hc', hwc', hr⟩ := ih { afterSendFailed s with C_ERROR_COUNT := 0 }
        (fun l' hl' => hall l' (List.mem_cons_of_mem _ hl'))
        (by simpa [afterSendFailed] using hwc) rfl
      refine ⟨s', by simp [runLoop, hstep, hrun], hc', hwc', ?_⟩
      rw [hr]
      simp [afterSendFailed, restarts]

/-- C9, on one refused cycle from the booted initiator with `waitCount` left
at 5, and on three refused cycles in a row from the booted initiator. -/
theorem C9_refused_write_reuses_stale_waitCount_witness :
    (∃ o, loop 0 refused { booted with waitCount := 5 } = some o ∧
        o.state.waitCount = ({ booted with waitCount := 5 } : State).waitCount ∧
        (({ booted with waitCount := 5 } : State).waitCount = 5 →
          o.state.C_ERROR_COUNT
            = inc32 ({ booted with waitCount := 5 } : State).C_ERROR_COUNT) ∧
        (({ booted with waitCount := 5 } : State).waitCount ≠ 5 →
          o.didReturn = true ∧ o.state.C_ERROR_COUNT = 0)) ∧
    (∃ s', runLoop 0 (List.replicate 3 refused) booted = some (.returned s') ∧
        s'.C_ERROR_COUNT = 0 ∧ s'.waitCount = 0 ∧ restarts s'.log = restarts booted.log) :=
  ⟨(C9_refused_write_reuses_stale_waitCount 0).1 refused { booted with waitCount := 5 } rfl,
   (C9_refused_write_reuses_stale_waitCount 0).2 (List.replicate 3 refused) booted
    (fun l hl => by rw [List.eq_of_mem_replicate hl]; rfl) rfl rfl⟩

/-- C10: at the end of a cycle the radio is transmitting after a cycle whose
reply was found on one of the five polls, listening after a cycle whose write
succeeded and whose five polls found nothing, and configured as before after a
cycle whose write was refused. So a write can be issued while the radio
listens: when a cycle without reply returns, the radio is listening and the
first call of the next cycle, whatever the link answers, is its `NRF24_write`;
on the booted initiator, the writes of two cycles without reply are issued
with the radio transmitting for the first and listening for the second. -/
theorem C10_direction_left_by_a_cycle (fuel : Nat) (hfuel : 6 ≤ fuel) (l : Link)
    (s : State) :
    (l.write = true → ∀ k, 1 ≤ k → k ≤ 5 → (∀ i, i + 1 < k → l.avail i = false) →
      l.avail (k - 1) = true →
      ∃ o, loop fuel l s = some o ∧ o.state.radio.listening = false) ∧
    (l.write = true → (∀ i, i < 5 → l.avail i = false) →
      ∃ o, loop fuel l s = some o ∧ o.state.radio.listening = true) ∧
    (l.write = false → ∃ o, loop fuel l s = some o ∧ o.state.radio = s.radio) ∧
    (l.write = true → (∀ i, i < 5 → l.avail i = false) → inc32 s.C_ERROR_COUNT < 10 →
      ∀ l2 : Link, ∃ s1 o2 rest, loop fuel l s = some (.returned s1) ∧
        s1.radio.listening = true ∧ loop fuel l2 s1 = some o2 ∧
        o2.state.log = s1.log ++ Call.write .myTxData 32 :: rest) ∧
    (runLoop 6 [silent, silent] booted).map
        (fun o => writeDirections blankRadio.listening o.state.log)
      = some [false, true] := by
  obtain ⟨n, rfl⟩ := Nat.exists_eq_add_of_le' hfuel
  refine ⟨?_, ?_, ?_, ?_, by decide⟩
  · intro hw k hk1 hk5 hmiss hhit
    refine ⟨_, loop_success n k l s hw hk1 hk5 hmiss hhit, ?_⟩
    rw [announce_radio]
    rfl
  · intro hw hav
    refine ⟨_, loop_noAck n l s hw hav, ?_⟩
    rw [announce_radio]
    rfl
  · intro hw
    refine ⟨_, loop_sendFailed _ l s hw, ?_⟩
    rw [announce_radio]
    rfl
  · intro hw hav hlt l2
    obtain ⟨o2, rest, hloop2, hlog2⟩ := loop_first_call n l2
      { afterNoAck s with C_ERROR_COUNT := inc32 (afterNoAck s).C_ERROR_COUNT }
    refine ⟨_, o2, rest, ?_, ?_, hloop2, hlog2⟩
    · rw [loop_noAck n l s hw hav, announce_limit_error _ (by simpa [afterNoAck] using hlt)]
    · rfl

/-- C10, on the booted initiator. -/
theorem C10_direction_left_by_a_cycle_witness :
    (∃ o, loop 6 (replyAt 5) booted = some o ∧ o.state.radio.listening = false) ∧
    (∃ o, loop 6 silent booted = some o ∧ o.state.radio.listening = true) ∧
    (∃ o, loop 6 refused booted = some o ∧ o.state.radio = booted.radio) ∧
    (∃ s1 o2 rest, loop 6 silent booted = some (.returned s1) ∧
        s1.radio.listening = true ∧ loop 6 silent s1 = some o2 ∧
        o2.state.log = s1.log ++ Call.write .myTxData 32 :: rest) :=
  ⟨(C10_direction_left_by_a_cycle 6 (le_refl 6) (replyAt 5) booted).1 rfl 5 (by decide)
      (by decide) (fun i hi => by simp [replyAt]; omega) (by simp [replyAt]),
   (C10_direction_left_by_a_cycle 6 (le_refl 6) silent booted).2.1 rfl (fun _ _ => rfl),
   (C10_direction_left_by_a_cycle 6 (le_refl 6) refused booted).2.2.1 rfl,
   (C10_direction_left_by_a_cycle 6 (le_refl 6) silent booted).2.2.2.1 rfl (fun _ _ => rfl)
      (by decide) silent⟩

end Master

/-! ## Properties of the responder and of the mode switches -/

namespace Slave

theorem mainIteration_sent (n j : Nat) (ws : Nat → Bool) (s : State)
    (hj1 : 1 ≤ j) (hj5 : j ≤ 5) (hmiss : ∀ i, i + 1 < j → ws i = false)
    (hhit : ws (j - 1) = true) :
    mainIteration (n + 6) true ws s = some (afterSent j s) := by
  have h0 := hmiss 0
  have h1 := hmiss 1
  have h2 := hmiss 2
  have h3 := hmiss 3
  interval_cases j <;>
  simp at h0 h1 h2 h3 hhit <;>
  simp [mainIteration, Receive_Data, Tx_Mode, Rx_Mode, Send_Data, sendLoop, HAL_Delay,
    HAL_GPIO_WritePin, State.call, Radio.apply, h0, h1, h2, h3, hhit, afterSent,
    txModeCalls, rxModeCalls, refusedCalls, servedRadio]

theorem mainIteration_exhausted (n : Nat) (ws : Nat → Bool) (s : State)
    (hall : ∀ i, i < 5 → ws i = false) :
    mainIteration (n + 6) true ws s = some (afterExhausted s) := by
  have h0 := hall 0 (by omega)
  have h1 := hall 1 (by omega)
  have h2 := hall 2 (by omega)
  have h3 := hall 3 (by omega)
  have h4 := hall 4 (by omega)
  simp [mainIteration, Receive_Data, Tx_Mode, Rx_Mode, Send_Data, sendLoop, HAL_Delay,
    HAL_GPIO_WritePin, State.call, Radio.apply, h0, h1, h2, h3, h4, afterExhausted,
    txModeCalls, rxModeCalls, refusedCalls, servedRadio]

theorem writes_refusedCalls (j : Nat) : writes (refusedCalls j) = j := by
  induction j with
  | zero => rfl
  | succ j ih =>
    simp only [writes] at ih
    simp [refusedCalls, writes, ih]

theorem mainIteration_received (fuel : Nat) (ws : Nat → Bool) (s : State) :
    mainIteration fuel true ws s
      = (sendLoop fuel ws 0 (Tx_Mode (Receive_Data true s).2)).map Rx_Mode := by
  simp [mainIteration, Receive_Data]

theorem writes_afterSent (j : Nat) (s : State) (hj1 : 1 ≤ j) :
    writes (afterSent j s).log = writes s.log + j := by
  simp only [afterSent, writes_append, writes_refusedCalls]
  simp [writes, txModeCalls, rxModeCalls]
  omega

theorem writes_afterExhausted (s : State) :
    writes (afterExhausted s).log = writes s.log + 5 := by
  simp only [afterExhausted, writes_append, writes_refusedCalls]
  simp [writes, txModeCalls, rxModeCalls]

/-- C6: in an iteration of `main` that received a message, with enough fuel
the send loop ends in some state `sb`, the iteration ends in `Rx_Mode sb` (its
last operation is the call of `Rx_Mode`) with the radio listening, and the
number of `NRF24_write` calls it made, one per `Send_Data`, is at most 5: it
is `j` when write `j` (1 to 5) is the first to be accepted, and 5 when the
first five writes are all refused. -/
theorem C6_send_loop_bounded_then_listen (fuel : Nat) (hfuel : 6 ≤ fuel)
    (ws : Nat → Bool) (s : State) :
    ∃ sb, sendLoop fuel ws 0 (Tx_Mode (Receive_Data true s).2) = some sb ∧
      mainIteration fuel true ws s = some (Rx_Mode sb) ∧
      (Rx_Mode sb).radio.listening = true ∧
      writes (Rx_Mode sb).log ≤ writes s.log + 5 ∧
      (∀ j, 1 ≤ j → j ≤ 5 → (∀ i, i + 1 < j → ws i = false) → ws (j - 1) = true →
        writes (Rx_Mode sb).log = writes s.log + j) ∧
      ((∀ i, i < 5 → ws i = false) → writes (Rx_Mode sb).log = writes s.log + 5) := by
  obtain ⟨n, rfl⟩ := Nat.exists_eq_add_of_le' hfuel
  have hmap := mainIteration_received (n + 6) ws s
  rcases Master.first_hit ws with hall | ⟨j, hj1, hj5, hmiss, hhit⟩
  · have hm := mainIteration_exhausted n ws s hall
    rw [hmap, Option.map_eq_some'] at hm
    obtain ⟨sb, hsb, hrx⟩ := hm
    refine ⟨sb, hsb, by rw [hmap, hsb]; rfl, ?_, ?_, ?_, ?_⟩
    · rw [hrx]; rfl
    · rw [hrx, writes_afterExhausted]
    · intro j' hj1' hj5' _ hhit'
      have := hall (j' - 1) (by omega)
      rw [this] at hhit'
      cases hhit'
    · intro _
      rw [hrx, writes_afterExhausted]
  · have hm := mainIteration_sent n j ws s hj1 hj5 hmiss hhit
    rw [hmap, Option.map_eq_some'] at hm
    obtain ⟨sb, hsb, hrx⟩ := hm
    refine ⟨sb, hsb, by rw [hmap, hsb]; rfl, ?_, ?_, ?_, ?_⟩
    · rw [hrx]; rfl
    · rw [hrx, writes_afterSent j s hj1]
      omega
    · intro j' hj1' hj5' hmiss' hhit'
      have hjj : j' = j := by
        rcases Nat.lt_trichotomy j' j with hlt | heq | hgt
        · have := hmiss (j' - 1) (by omega)
          rw [this] at hhit'
          cases hhit'
        · exact heq
        · have := hmiss' (j - 1) (by omega)
          rw [this] at hhit
          cases hhit
      rw [hjj, hrx, writes_afterSent j s hj1]
    · intro hall
      have := hall (j - 1) (by omega)
      rw [this] at hhit
      cases hhit

/-- C6, on the booted responder: the third write is the first accepted one,
and, for the last part, no write is accepted. -/
theorem C6_send_loop_bounded_then_listen_witness :
    (∃ sb, sendLoop 6 (fun i => decide (i = 2)) 0 (Tx_Mode (Receive_Data true booted).2)
        = some sb ∧
      mainIteration 6 true (fun i => decide (i = 2)) booted = some (Rx_Mode sb) ∧
      (Rx_Mode sb).radio.listening = true ∧
      writes (Rx_Mode sb).log = writes booted.log + 3) ∧
    (∃ sb, sendLoop 6 (fun _ => false) 0 (Tx_Mode (Receive_Data true booted).2) = some sb ∧
      mainIteration 6 true (fun _ => false) booted = some (Rx_Mode sb) ∧
      (Rx_Mode sb).radio.listening = true ∧
      writes (Rx_Mode sb).log = writes booted.log + 5) :=
  ⟨(C6_send_loop_bounded_then_listen 6 (le_refl 6) (fun i => decide (i = 2)) booted).imp
      fun _ h => ⟨h.1, h.2.1, h.2.2.1,
        h.2.2.2.2.1 3 (by decide) (by decide) (fun i hi => by simp; omega) (by simp)⟩,
   (C6_send_loop_bounded_then_listen 6 (le_refl 6) (fun _ => false) booted).imp
      fun _ h => ⟨h.1, h.2.1, h.2.2.1, h.2.2.2.2.2 (fun _ _ => rfl)⟩⟩

end Slave

/-- C7: on every state and for each direction, running the mode switch a
second time issues the same calls as the first time and leaves the radio
configuration as the first run left it. On the initiator
`nrf24_config_mode(TX_MODE)` leaves the radio transmitting with the writing
pipe on `0x11223344AA`, and `nrf24_config_mode(RX_MODE)` leaves it listening
with reading pipe 1 on `0x11223344AA`; on the responder `Tx_Mode` and
`Rx_Mode` do the same; and all four leave auto-ack on, channel 52, payload
size 32, dynamic payloads on and ack payloads on. -/
theorem C7_mode_switch_idempotent :
    (∀ (d : Bool) (s : Master.State),
      (Master.nrf24_config_mode d (Master.nrf24_config_mode d s)).radio
        = (Master.nrf24_config_mode d s).radio ∧
      (Master.nrf24_config_mode d s).log = s.log ++ Master.configModeCalls d ∧
      (Master.nrf24_config_mode d (Master.nrf24_config_mode d s)).log
        = (Master.nrf24_config_mode d s).log ++ Master.configModeCalls d) ∧
    (∀ s : Master.State,
      (Master.nrf24_config_mode Master.TX_MODE s).radio
        = { s.radio with listening := false, writingPipe := some 0x11223344AA,
                         autoAck := true, channel := 52, payloadSize := 32,
                         dynamicPayloads := true, ackPayloads := true } ∧
      (Master.nrf24_config_mode Master.RX_MODE s).radio
        = { s.radio with listening := true, readingPipe := some (1, 0x11223344AA),
                         autoAck := true, channel := 52, payloadSize := 32,
                         dynamicPayloads := true, ackPayloads := true }) ∧
    (∀ s : Slave.State,
      (Slave.Tx_Mode (Slave.Tx_Mode s)).radio = (Slave.Tx_Mode s).radio ∧
      (Slave.Tx_Mode s).log = s.log ++ Slave.txModeCalls ∧
      (Slave.Tx_Mode (Slave.Tx_Mode s)).log = (Slave.Tx_Mode s).log ++ Slave.txModeCalls ∧
      (Slave.Rx_Mode (Slave.Rx_Mode s)).radio = (Slave.Rx_Mode s).radio ∧
      (Slave.Rx_Mode s).log = s.log ++ Slave.rxModeCalls ∧
      (Slave.Rx_Mode (Slave.Rx_Mode s)).log = (Slave.Rx_Mode s).log ++ Slave.rxModeCalls) ∧
    (∀ s : Slave.State,
      (Slave.Tx_Mode s).radio
        = { s.radio with listening := false, writingPipe := some 0x11223344AA,
                         autoAck := true, channel := 52, payloadSize := 32,
                         dynamicPayloads := true, ackPayloads := true } ∧
      (Slave.Rx_Mode s).radio
        = { s.radio with listening := true, readingPipe := some (1, 0x11223344AA),
                         autoAck := true, channel := 52, payloadSize := 32,
                         dynamicPayloads := true, ackPayloads := true }) := by
  refine ⟨?_, ?_, ?_, ?_⟩
  · intro d s
    cases d <;>
      simp [Master.nrf24_config_mode, Master.State.call, Radio.apply, Master.configModeCalls]
  · intro s
    simp [Master.nrf24_config_mode, Master.State.call, Radio.apply, Master.TX_MODE,
      Master.RX_MODE, Master.SlaveAddrs]
  · intro s
    simp [Slave.Tx_Mode, Slave.Rx_Mode, Slave.HAL_GPIO_WritePin, Slave.State.call,
      Radio.apply, Slave.txModeCalls, Slave.rxModeCalls]
  · intro s
    simp [Slave.Tx_Mode, Slave.Rx_Mode, Slave.HAL_GPIO_WritePin, Slave.State.call,
      Radio.apply, Slave.pipeAddr]
